import Mathlib

/-!
Shallow embedding of the geospatial discovery-and-routing engine of
`src/script.js` (emergency-resource locator): classification of Overpass
elements, the radius coercion, the discovery fetch wrapper, the
ranking/filter pipeline of `scanNearby`, the haversine distance, and the
route / clear-route state handling, together with theorems settling the
spec claims about them.

Conventions of the embedding:
- JS numbers used for coordinates and distances are modelled as real
  numbers (`ℝ`); numbers that are merely stored and displayed (route
  distance/duration, geometry) are modelled as rationals (`ℚ`).
- A JS object used as a string map (`elem.tags`) is modelled as an
  association list `List (String × String)`; a possibly-absent field is
  an `Option`.
- `setStatus` writes are modelled by a `StatusMsg` value stored in the
  state; the constructor carries exactly the data interpolated into the
  corresponding status string in the source.
- Leaflet layers are modelled by numeric ids; "the layer is on the map"
  is membership of its id in a list.
-/

/-- The tag map of an Overpass element: `tags` in `{id, lat, lon, tags: {...}}`. -/
def Tags : Type := List (String × String)

/-- An element of the Overpass response's `elements` array, as read by
`scanNearby`/`classify`: `id`, `lat`, `lon` and a possibly-absent `tags`. -/
structure OsmElem where
  id : Nat
  lat : ℝ
  lon : ℝ
  tags : Option Tags

/-- The five classification outcomes of `classify` in `src/script.js`. -/
inductive Category where
  | hospital
  | police
  | fire
  | shelter
  | unknown
deriving DecidableEq

/-- Core of `classify` once `elem.tags || {}` has produced a map: the
if-chain on `tags.amenity` / `tags.emergency` (src/script.js:107-114). -/
def classifyTags (tags : Tags) : Category :=
  if tags.lookup "amenity" = some "hospital" then .hospital
  else if tags.lookup "amenity" = some "police" then .police
  else if tags.lookup "amenity" = some "fire_station" then .fire
  else if tags.lookup "emergency" = some "shelter" ∨ tags.lookup "amenity" = some "shelter"
    then .shelter
  else .unknown

/-- `classify(elem)` of src/script.js:107-114: `const tags = elem.tags || {}`
(an absent tag map is replaced by the empty map) followed by the if-chain. -/
def classify (e : OsmElem) : Category :=
  classifyTags (e.tags.getD [])

/-- JS whitespace accepted and skipped by `parseInt` (the common cases). -/
def isJsWs (c : Char) : Bool :=
  c = ' ' || c = '\t' || c = '\n' || c = '\r'

/-- Value of a digit under radix 10 or 16, as accepted by JS `parseInt`. -/
def digitVal (radix : Nat) (c : Char) : Option Nat :=
  if '0' ≤ c ∧ c ≤ '9' then some (c.toNat - '0'.toNat)
  else if radix = 16 ∧ 'a' ≤ c ∧ c ≤ 'f' then some (c.toNat - 'a'.toNat + 10)
  else if radix = 16 ∧ 'A' ≤ c ∧ c ≤ 'F' then some (c.toNat - 'A'.toNat + 10)
  else none

/-- Accumulate the value of a digit list under a radix. -/
def digitsValue (radix : Nat) (ds : List Nat) : Nat :=
  ds.foldl (fun acc d => acc * radix + d) 0

/-- JS `parseInt(s)` with no radix argument: skip leading whitespace, read an
optional sign, detect a `0x`/`0X` prefix (radix 16, else 10), then read the
longest prefix of digits; `none` models the `NaN` result when no digit is
read. -/
def jsParseInt (s : String) : Option Int :=
  let cs := s.data.dropWhile isJsWs
  let signAndRest : Int × List Char :=
    match cs with
    | '-' :: rest => (-1, rest)
    | '+' :: rest => (1, rest)
    | _ => (1, cs)
  let radixAndRest : Nat × List Char :=
    match signAndRest.2 with
    | '0' :: 'x' :: rest => (16, rest)
    | '0' :: 'X' :: rest => (16, rest)
    | _ => (10, signAndRest.2)
  let ds := (radixAndRest.2.takeWhile (fun c => (digitVal radixAndRest.1 c).isSome)).filterMap
    (digitVal radixAndRest.1)
  if ds.isEmpty then none
  else some (signAndRest.1 * (digitsValue radixAndRest.1 ds : Int))

/-- The radius computation of `scanNearby` (src/script.js:162):
`parseInt(document.getElementById('radius').value) || 2000`. `NaN` and `0`
(and `-0`) are falsy, so they are replaced by `2000`; any other parsed
integer — negative included — is kept. -/
def radiusValue (s : String) : Int :=
  match jsParseInt s with
  | none => 2000
  | some n => if n = 0 then 2000 else n

/-- Outcome of a single `fetch` as observed by the `await`ing code: either a
response with an HTTP status and a parsed JSON body, or a network failure
whose message feeds the thrown `Error`. -/
inductive FetchOutcome (β : Type) where
  | ok (status : Nat) (body : β)
  | networkError (msg : String)

/-- `res.ok` of the Fetch API: status in the inclusive range 200-299. -/
def resOk (status : Nat) : Bool :=
  200 ≤ status && status ≤ 299

/-- The JSON body of an Overpass response as read by `fetchNearby`:
`data.elements || []` means the `elements` field may be absent. -/
structure OverpassJson where
  elements : Option (List OsmElem)

/-- A route entry of an OSRM response: `{geometry, distance, duration}`. -/
structure RouteEntry where
  geometry : List (ℚ × ℚ)
  distance : ℚ
  duration : ℚ
deriving DecidableEq

/-- The JSON body of an OSRM response as read by `routeTo`: `j.routes`. -/
structure RouteJson where
  routes : List RouteEntry
deriving DecidableEq

/-- The status line values written by `setStatus` in the modelled code paths,
each constructor carrying the data interpolated into the source's string. -/
inductive StatusMsg where
  | searchingNearby
  | overpassFailed (msg : String)
  | noLocationYet
  | noPlacesFound
  | noSelectedTypePlaces
  | foundPlaces (n : Nat)
  | noLocationForRoute
  | requestingRoute
  | routeInfo (distance duration : ℚ)
  | noRouteFound
  | routingFailed (msg : String)
  | routeCleared
deriving DecidableEq

/-- `fetchNearby` (src/script.js:95-105), resolved against a fetch outcome:
sets `Searching nearby...`, and in the `catch` branch sets
`Overpass failed: <message>` and returns `[]`; a non-ok status throws
`Overpass error <status>` into that branch; on success it returns
`data.elements || []`. The returned `StatusMsg` is the status as of the
function's return. -/
def fetchNearby (resp : FetchOutcome OverpassJson) : List OsmElem × StatusMsg :=
  match resp with
  | .networkError m => ([], .overpassFailed m)
  | .ok status body =>
    if resOk status then (body.elements.getD [], .searchingNearby)
    else ([], .overpassFailed ("Overpass error " ++ toString status))

/-- `toRad` inside `haversine` (src/script.js:59): degrees to radians. -/
noncomputable def toRad (x : ℝ) : ℝ := x * Real.pi / 180

/-- JS `Math.atan2(y, x)`: the angle of the point `(x, y)`, by quadrant. -/
noncomputable def atan2 (y x : ℝ) : ℝ :=
  if 0 < x then Real.arctan (y / x)
  else if x < 0 then
    (if 0 ≤ y then Real.arctan (y / x) + Real.pi else Real.arctan (y / x) - Real.pi)
  else
    (if 0 < y then Real.pi / 2 else if y < 0 then -(Real.pi / 2) else 0)

/-- `haversine(lat1, lon1, lat2, lon2)` (src/script.js:58-66): great-circle
distance in meters with Earth radius `R = 6371000`. -/
noncomputable def haversine (lat1 lon1 lat2 lon2 : ℝ) : ℝ :=
  let R : ℝ := 6371000
  let dLat := toRad (lat2 - lat1)
  let dLon := toRad (lon2 - lon1)
  let a := Real.sin (dLat / 2) * Real.sin (dLat / 2)
    + Real.cos (toRad lat1) * Real.cos (toRad lat2)
      * Real.sin (dLon / 2) * Real.sin (dLon / 2)
  let c := 2 * atan2 (Real.sqrt a) (Real.sqrt (1 - a))
  R * c

/-- The object built by the first `.map` of `scanNearby`
(src/script.js:176-181): `{id, lat, lon, tags: e.tags || {}}`. -/
structure PrePlace where
  id : Nat
  lat : ℝ
  lon : ℝ
  tags : Tags

/-- The object after the second `.map`: `{ ...p, type: classify(p) }`.
`classify(p)` re-evaluates `p.tags || {}`, which is the identity here since
`p.tags` is always a map. -/
structure Place where
  id : Nat
  lat : ℝ
  lon : ℝ
  tags : Tags
  type : Category

/-- The place after `p.dist = haversine(myLat, myLon, p.lat, p.lon)`
(src/script.js:186). -/
structure RankedPlace extends Place where
  dist : ℝ

/-- First `.map` of the `scanNearby` pipeline. -/
def placeOfElem (e : OsmElem) : PrePlace :=
  ⟨e.id, e.lat, e.lon, e.tags.getD []⟩

/-- Second `.map` of the pipeline: attach `classify(p)`. -/
def withType (p : PrePlace) : Place :=
  ⟨p.id, p.lat, p.lon, p.tags, classifyTags p.tags⟩

/-- The `okTypes` array of `scanNearby` (src/script.js:166-170): one `push`
per checked category checkbox, in source order. -/
def okTypesOf (showHospital showPolice showFire showShelter : Bool) : List Category :=
  (if showHospital then [Category.hospital] else [])
  ++ (if showPolice then [Category.police] else [])
  ++ (if showFire then [Category.fire] else [])
  ++ (if showShelter then [Category.shelter] else [])

/-- The comparator `(a,b) => a.dist - b.dist` of `places.sort`
(src/script.js:187), as the boolean order it induces on non-NaN numbers. -/
noncomputable def distLe (a b : RankedPlace) : Bool :=
  decide (a.dist ≤ b.dist)

/-- The `scanNearby` pipeline up to (not including) the sort
(src/script.js:176-186): map to `{id,lat,lon,tags}`, attach the category,
keep only `okTypes.includes(p.type)`, attach the haversine distance from
self. -/
noncomputable def rankedUnsorted (elements : List OsmElem) (myLat myLon : ℝ)
    (okTypes : List Category) : List RankedPlace :=
  (((elements.map placeOfElem).map withType).filter
      (fun p => decide (p.type ∈ okTypes))).map
    (fun p => ⟨p, haversine myLat myLon p.lat p.lon⟩)

/-- The full filter-then-sort pipeline of `scanNearby`
(src/script.js:176-187). JS `Array.prototype.sort` is stable (ES2019), so it
is modelled by a stable merge sort under the comparator's order. -/
noncomputable def rankPlaces (elements : List OsmElem) (myLat myLon : ℝ)
    (okTypes : List Category) : List RankedPlace :=
  (rankedUnsorted elements myLat myLon okTypes).mergeSort distLe

/-- The mutable route/map state read and written by `routeTo` and the
`clearRoute` click handler: the `routeLayer` variable (id of the Leaflet
layer it references, if any), the route layers currently on the map,
a counter allocating fresh layer ids (modelling `L.geoJSON(...)`), and the
status line. -/
structure AppState where
  routeLayer : Option Nat
  mapLayers : List Nat
  nextLayerId : Nat
  status : StatusMsg
deriving DecidableEq

/-- `routeTo` up to its first `await` (src/script.js:131-136): bail out with
`Current location unknown ...` when `meMarker` is unset, else set
`Requesting route...`; the boolean reports whether the request was issued. -/
def routeToStart (s : AppState) (hasLocation : Bool) : AppState × Bool :=
  if hasLocation then ({ s with status := .requestingRoute }, true)
  else ({ s with status := .noLocationForRoute }, false)

/-- The continuation of `routeTo` after `await fetch`/`await res.json()`
resolve (src/script.js:137-151). A network failure, or the `Routing error
<status>` thrown on `!res.ok`, lands in the `catch` branch. On a parsed
body: `if (routeLayer) map.removeLayer(routeLayer)` runs first; then a
non-empty `j.routes` installs a fresh layer as the new `routeLayer` and
reports distance/duration, while an empty one only sets `No route found`. -/
def routeToResolve (s : AppState) (resp : FetchOutcome RouteJson) : AppState :=
  match resp with
  | .networkError m => { s with status := .routingFailed m }
  | .ok status j =>
    if resOk status then
      let s1 :=
        match s.routeLayer with
        | some L => { s with mapLayers := s.mapLayers.erase L }
        | none => s
      match j.routes with
      | [] => { s1 with status := .noRouteFound }
      | r :: _ =>
        { s1 with
          routeLayer := some s1.nextLayerId
          mapLayers := s1.mapLayers ++ [s1.nextLayerId]
          nextLayerId := s1.nextLayerId + 1
          status := .routeInfo r.distance r.duration }
    else { s with status := .routingFailed ("Routing error " ++ toString status) }

/-- The `clearRoute` click handler (src/script.js:154-156): only when
`routeLayer` is set, remove it from the map, null the variable and set
`Route cleared`; otherwise do nothing at all. -/
def clearRouteClick (s : AppState) : AppState :=
  match s.routeLayer with
  | some L =>
    { s with mapLayers := s.mapLayers.erase L, routeLayer := none, status := .routeCleared }
  | none => s

/-- The presentation state read and written by `scanNearby`: the rendered
results list (`resultsEl`), the markers in the `placeMarkers` layer group
(each represented by the place it shows), and the status line. -/
structure ScanState where
  results : List RankedPlace
  markers : List RankedPlace
  status : StatusMsg

/-- One full run of `scanNearby` (src/script.js:158-194), resolved against a
fetch outcome. `clearPlaces()` empties the markers and the results list
before anything else; then the guard on `meMarker`, the radius coercion,
the fetch, the empty-elements guard, the pipeline, the empty-places guard,
and finally markers + list entries + `Found n place(s)`. -/
noncomputable def scanNearbyRun (s : ScanState) (me : Option (ℝ × ℝ))
    (radiusInput : String) (showHospital showPolice showFire showShelter : Bool)
    (resp : FetchOutcome OverpassJson) : ScanState :=
  let s0 : ScanState := { s with markers := [], results := [] }
  match me with
  | none => { s0 with status := .noLocationYet }
  | some (myLat, myLon) =>
    let _radius := radiusValue radiusInput
    let fetched := fetchNearby resp
    let s1 := { s0 with status := fetched.2 }
    if fetched.1.isEmpty then { s1 with status := .noPlacesFound }
    else
      let okTypes := okTypesOf showHospital showPolice showFire showShelter
      let places := rankPlaces fetched.1 myLat myLon okTypes
      if places.isEmpty then { s1 with status := .noSelectedTypePlaces }
      else { s1 with markers := places, results := places, status := .foundPlaces places.length }

/-- C2: classification is a total, deterministic function of the tag map —
being a Lean function it returns exactly one `Category` — and it follows the
precedence order `amenity=hospital` → hospital, `amenity=police` → police,
`amenity=fire_station` → fire, (`emergency=shelter` or `amenity=shelter`) →
shelter, else unknown. -/
theorem classify_total_precedence (tags : Tags) :
    (tags.lookup "amenity" = some "hospital" → classifyTags tags = .hospital)
    ∧ (tags.lookup "amenity" ≠ some "hospital" →
        tags.lookup "amenity" = some "police" → classifyTags tags = .police)
    ∧ (tags.lookup "amenity" ≠ some "hospital" →
        tags.lookup "amenity" ≠ some "police" →
        tags.lookup "amenity" = some "fire_station" → classifyTags tags = .fire)
    ∧ (tags.lookup "amenity" ≠ some "hospital" →
        tags.lookup "amenity" ≠ some "police" →
        tags.lookup "amenity" ≠ some "fire_station" →
        (tags.lookup "emergency" = some "shelter" ∨ tags.lookup "amenity" = some "shelter") →
        classifyTags tags = .shelter)
    ∧ (tags.lookup "amenity" ≠ some "hospital" →
        tags.lookup "amenity" ≠ some "police" →
        tags.lookup "amenity" ≠ some "fire_station" →
        ¬(tags.lookup "emergency" = some "shelter" ∨ tags.lookup "amenity" = some "shelter") →
        classifyTags tags = .unknown) := by
  refine ⟨?_, ?_, ?_, ?_, ?_⟩ <;> intros <;> simp_all [classifyTags]

/-- Witness for C2: a map carrying both `amenity=hospital` and
`emergency=shelter` classifies as hospital (precedence), and the empty map
classifies as unknown. -/
theorem classify_total_precedence_witness :
    classifyTags [("amenity", "hospital"), ("emergency", "shelter")] = .hospital
    ∧ classifyTags [] = .unknown :=
  ⟨(classify_total_precedence [("amenity", "hospital"), ("emergency", "shelter")]).1
      (by decide),
    (classify_total_precedence []).2.2.2.2 (by decide) (by decide) (by decide) (by decide)⟩

/-- C9: an element whose `tags` field is absent is treated as carrying the
empty tag map and classifies as unknown; `classify` never fails on it. -/
theorem classify_absent_tags_unknown (e : OsmElem) (h : e.tags = none) :
    classify e = .unknown := by
  simp [classify, h, classifyTags, List.lookup]

/-- Witness for C9: a concrete element with no `tags` field. -/
theorem classify_absent_tags_unknown_witness :
    classify ⟨7, 0, 0, none⟩ = .unknown :=
  classify_absent_tags_unknown ⟨7, 0, 0, none⟩ rfl

/-- C7 counterexample: the radius input `"-5"` parses to `-5`, which is
truthy, so `parseInt(...) || 2000` keeps it — the radius used for the query
is not a positive integer. -/
theorem radius_positive_counterexample :
    ¬ (0 < radiusValue "-5") := by decide

/-- C7 amended: the radius is never zero; inputs `parseInt` cannot parse
(NaN) and inputs parsing to zero are replaced by 2000; but every other
parsed value, negative ones included, is used as-is. -/
theorem radius_default_amended (s : String) :
    radiusValue s ≠ 0
    ∧ (jsParseInt s = none → radiusValue s = 2000)
    ∧ (jsParseInt s = some 0 → radiusValue s = 2000)
    ∧ (∀ n : Int, jsParseInt s = some n → n ≠ 0 → radiusValue s = n) := by
  refine ⟨?_, ?_, ?_, ?_⟩
  · unfold radiusValue
    cases h : jsParseInt s with
    | none => decide
    | some n =>
      by_cases hn : n = 0 <;> simp [hn]
  · intro h; simp [radiusValue, h]
  · intro h; simp [radiusValue, h]
  · intro n h hn; simp [radiusValue, h, hn]

/-- Witness for C7 amended: the non-numeric input `"abc"` gives 2000, the
input `"0"` gives 2000, and the input `"-5"` gives `-5`. -/
theorem radius_default_amended_witness :
    radiusValue "abc" = 2000 ∧ radiusValue "0" = 2000 ∧ radiusValue "-5" = -5 :=
  ⟨(radius_default_amended "abc").2.1 (by decide),
    (radius_default_amended "0").2.2.1 (by decide),
    (radius_default_amended "-5").2.2.2 (-5) (by decide) (by decide)⟩

/-- C5: a discovery fetch that ends in a non-success HTTP status yields the
empty element list and the status message `Overpass failed: Overpass error
<status>`; a network failure yields the empty list and `Overpass failed:
<message>` — in both cases the caller gets an empty sequence and a status
line, not an unhandled fault. -/
theorem fetchNearby_failure_empty (resp : FetchOutcome OverpassJson) :
    (∀ m, resp = .networkError m → fetchNearby resp = ([], .overpassFailed m))
    ∧ (∀ status body, resp = .ok status body → resOk status = false →
        fetchNearby resp = ([], .overpassFailed ("Overpass error " ++ toString status))) := by
  constructor
  · intro m h; subst h; rfl
  · intro status body h hbad; subst h; simp [fetchNearby, hbad]

/-- Witness for C5: an HTTP 500 from the discovery endpoint yields `[]` and
the status carrying `Overpass error 500`. -/
theorem fetchNearby_failure_empty_witness :
    fetchNearby (.ok 500 ⟨none⟩) = ([], .overpassFailed "Overpass error 500") :=
  (fetchNearby_failure_empty (.ok 500 ⟨none⟩)).2 500 ⟨none⟩ rfl (by decide)

/-- C10: clicking `clearRoute` while no route is active is a no-op — the
route variable, the map layers and the status line are all unchanged and
nothing is raised. -/
theorem clearRoute_idle_noop (s : AppState) (h : s.routeLayer = none) :
    clearRouteClick s = s := by
  simp [clearRouteClick, h]

/-- Witness for C10: a concrete idle state is fixed by the handler. -/
theorem clearRoute_idle_noop_witness :
    clearRouteClick ⟨none, [], 0, .routeCleared⟩ = ⟨none, [], 0, .routeCleared⟩ :=
  clearRoute_idle_noop ⟨none, [], 0, .routeCleared⟩ rfl

/-- C3 counterexample: start Idle, issue a route request, click `clearRoute`
while it is in flight, and let the in-flight call succeed with one route.
The final state has an active route (`routeLayer = some 0`), i.e. it is
`Active`, not `Idle`: no pending clear is recorded or applied. -/
theorem clear_during_requesting_counterexample :
    ¬ ((routeToResolve
          (clearRouteClick (routeToStart ⟨none, [], 0, .routeCleared⟩ true).1)
          (.ok 200 ⟨[⟨[], 1, 1⟩]⟩)).routeLayer = none) := by
  decide

/-- C3 amended: a `clearRoute` click during an in-flight request acts
immediately on whatever layer the `routeLayer` variable holds (a no-op when
it holds none) and is not recorded; when the in-flight call then succeeds
with a non-empty route list, the new route is installed — the final state is
`Active` with that route's distance/duration on the status line, never
`Idle`. -/
theorem clear_during_requesting_amended (s : AppState) (r : RouteEntry)
    (rs : List RouteEntry) :
    (routeToResolve (clearRouteClick s) (.ok 200 ⟨r :: rs⟩)).routeLayer
        = some (clearRouteClick s).nextLayerId
    ∧ (routeToResolve (clearRouteClick s) (.ok 200 ⟨r :: rs⟩)).status
        = .routeInfo r.distance r.duration := by
  have h200 : resOk 200 = true := by decide
  cases hL : (clearRouteClick s).routeLayer <;>
    simp [routeToResolve, h200, hL]

/-- C4 counterexample: with a route active (`routeLayer = some 0`, layer `0`
displayed on the map), a successful routing response whose `routes` list is
empty removes the displayed route from the map — the active-route display is
not left unchanged. -/
theorem empty_routes_display_counterexample :
    ¬ ((routeToResolve ⟨some 0, [0], 1, .routeInfo 5 60⟩ (.ok 200 ⟨[]⟩)).mapLayers
        = (⟨some 0, [0], 1, .routeInfo 5 60⟩ : AppState).mapLayers) := by
  decide

/-- C4 amended: on a successful routing response with an empty route list,
the status becomes `No route found` and the `routeLayer` variable and the
layer-id counter are unchanged, but the layer that variable references has
already been removed from the map (the removal runs before the emptiness
check). -/
theorem empty_routes_amended (s : AppState) (status : Nat)
    (h : resOk status = true) :
    (routeToResolve s (.ok status ⟨[]⟩)).status = .noRouteFound
    ∧ (routeToResolve s (.ok status ⟨[]⟩)).routeLayer = s.routeLayer
    ∧ (routeToResolve s (.ok status ⟨[]⟩)).nextLayerId = s.nextLayerId
    ∧ (routeToResolve s (.ok status ⟨[]⟩)).mapLayers
        = (match s.routeLayer with
            | some L => s.mapLayers.erase L
            | none => s.mapLayers) := by
  cases hL : s.routeLayer <;> simp [routeToResolve, h, hL]

/-- Witness for C4 amended: the concrete active state of the counterexample,
with an HTTP 200 response. -/
theorem empty_routes_amended_witness :
    (routeToResolve ⟨some 0, [0], 1, .routeInfo 5 60⟩ (.ok 200 ⟨[]⟩)).status = .noRouteFound
    ∧ (routeToResolve ⟨some 0, [0], 1, .routeInfo 5 60⟩ (.ok 200 ⟨[]⟩)).routeLayer = some 0
    ∧ (routeToResolve ⟨some 0, [0], 1, .routeInfo 5 60⟩ (.ok 200 ⟨[]⟩)).nextLayerId = 1
    ∧ (routeToResolve ⟨some 0, [0], 1, .routeInfo 5 60⟩ (.ok 200 ⟨[]⟩)).mapLayers = [] :=
  empty_routes_amended ⟨some 0, [0], 1, .routeInfo 5 60⟩ 200 (by decide)

/-- C6 counterexample: with a previously displayed one-entry result list, a
discovery cycle that fails for lack of a location ends with an empty result
list — the last-good list is not preserved, because `clearPlaces()` runs
unconditionally at the start of `scanNearby`. -/
theorem failed_scan_preserves_list_counterexample :
    ¬ ((scanNearbyRun ⟨[⟨⟨1, 0, 0, [], .hospital⟩, 0⟩], [], .foundPlaces 1⟩
          none "2000" true true true true (.ok 200 ⟨none⟩)).results
        = (⟨[⟨⟨1, 0, 0, [], .hospital⟩, 0⟩], [], .foundPlaces 1⟩ : ScanState).results) := by
  intro h
  simp only [scanNearbyRun] at h
  exact List.noConfusion h

/-- C6 amended: `scanNearby` unconditionally clears the previous result list
and markers at the start of every cycle, so a failing cycle (no location,
network failure, non-success HTTP status, or an empty element list) leaves
the displayed list empty and reports the failure only through the status
line — the last-good list is not preserved. -/
theorem failed_scan_clears_list_amended (s : ScanState) (radiusInput : String)
    (showHospital showPolice showFire showShelter : Bool) :
    (∀ resp, (scanNearbyRun s none radiusInput
          showHospital showPolice showFire showShelter resp).results = []
      ∧ (scanNearbyRun s none radiusInput
          showHospital showPolice showFire showShelter resp).markers = []
      ∧ (scanNearbyRun s none radiusInput
          showHospital showPolice showFire showShelter resp).status = .noLocationYet)
    ∧ (∀ myLat myLon m,
        (scanNearbyRun s (some (myLat, myLon)) radiusInput
            showHospital showPolice showFire showShelter (.networkError m)).results = []
        ∧ (scanNearbyRun s (some (myLat, myLon)) radiusInput
            showHospital showPolice showFire showShelter (.networkError m)).markers = []
        ∧ (scanNearbyRun s (some (myLat, myLon)) radiusInput
            showHospital showPolice showFire showShelter (.networkError m)).status
            = .noPlacesFound)
    ∧ (∀ myLat myLon status body, resOk status = false →
        (scanNearbyRun s (some (myLat, myLon)) radiusInput
            showHospital showPolice showFire showShelter (.ok status body)).results = []
        ∧ (scanNearbyRun s (some (myLat, myLon)) radiusInput
            showHospital showPolice showFire showShelter (.ok status body)).markers = []
        ∧ (scanNearbyRun s (some (myLat, myLon)) radiusInput
            showHospital showPolice showFire showShelter (.ok status body)).status
            = .noPlacesFound)
    ∧ (∀ myLat myLon status body, resOk status = true →
        body.elements.getD [] = [] →
        (scanNearbyRun s (some (myLat, myLon)) radiusInput
            showHospital showPolice showFire showShelter (.ok status body)).results = []
        ∧ (scanNearbyRun s (some (myLat, myLon)) radiusInput
            showHospital showPolice showFire showShelter (.ok status body)).markers = []
        ∧ (scanNearbyRun s (some (myLat, myLon)) radiusInput
            showHospital showPolice showFire showShelter (.ok status body)).status
            = .noPlacesFound) := by
  refine ⟨fun resp => ?_, fun myLat myLon m => ?_,
    fun myLat myLon status body h => ?_,
    fun myLat myLon status body h hempty => ?_⟩
  · simp [scanNearbyRun]
  · simp [scanNearbyRun, fetchNearby]
  · simp [scanNearbyRun, fetchNearby, h]
  · simp [scanNearbyRun, fetchNearby, h, hempty]

/-- Witness for C6 amended: with a previously displayed one-entry list, the
no-location cycle, the HTTP-500 cycle and the empty-elements HTTP-200 cycle
each end with empty results and markers and a failure status. -/
theorem failed_scan_clears_list_amended_witness :
    ((scanNearbyRun ⟨[⟨⟨1, 0, 0, [], .hospital⟩, 0⟩], [], .foundPlaces 1⟩
        none "2000" true true true true (.ok 200 ⟨none⟩)).results = []
      ∧ (scanNearbyRun ⟨[⟨⟨1, 0, 0, [], .hospital⟩, 0⟩], [], .foundPlaces 1⟩
          none "2000" true true true true (.ok 200 ⟨none⟩)).markers = []
      ∧ (scanNearbyRun ⟨[⟨⟨1, 0, 0, [], .hospital⟩, 0⟩], [], .foundPlaces 1⟩
          none "2000" true true true true (.ok 200 ⟨none⟩)).status = .noLocationYet)
    ∧ ((scanNearbyRun ⟨[⟨⟨1, 0, 0, [], .hospital⟩, 0⟩], [], .foundPlaces 1⟩
          (some (0, 0)) "2000" true true true true (.ok 500 ⟨none⟩)).results = []
      ∧ (scanNearbyRun ⟨[⟨⟨1, 0, 0, [], .hospital⟩, 0⟩], [], .foundPlaces 1⟩
          (some (0, 0)) "2000" true true true true (.ok 500 ⟨none⟩)).markers = []
      ∧ (scanNearbyRun ⟨[⟨⟨1, 0, 0, [], .hospital⟩, 0⟩], [], .foundPlaces 1⟩
          (some (0, 0)) "2000" true true true true (.ok 500 ⟨none⟩)).status = .noPlacesFound)
    ∧ ((scanNearbyRun ⟨[⟨⟨1, 0, 0, [], .hospital⟩, 0⟩], [], .foundPlaces 1⟩
          (some (0, 0)) "2000" true true true true (.ok 200 ⟨none⟩)).results = []
      ∧ (scanNearbyRun ⟨[⟨⟨1, 0, 0, [], .hospital⟩, 0⟩], [], .foundPlaces 1⟩
          (some (0, 0)) "2000" true true true true (.ok 200 ⟨none⟩)).markers = []
      ∧ (scanNearbyRun ⟨[⟨⟨1, 0, 0, [], .hospital⟩, 0⟩], [], .foundPlaces 1⟩
          (some (0, 0)) "2000" true true true true (.ok 200 ⟨none⟩)).status = .noPlacesFound) :=
  ⟨(failed_scan_clears_list_amended ⟨[⟨⟨1, 0, 0, [], .hospital⟩, 0⟩], [], .foundPlaces 1⟩
      "2000" true true true true).1 (.ok 200 ⟨none⟩),
    (failed_scan_clears_list_amended ⟨[⟨⟨1, 0, 0, [], .hospital⟩, 0⟩], [], .foundPlaces 1⟩
      "2000" true true true true).2.2.1 0 0 500 ⟨none⟩ (by decide),
    (failed_scan_clears_list_amended ⟨[⟨⟨1, 0, 0, [], .hospital⟩, 0⟩], [], .foundPlaces 1⟩
      "2000" true true true true).2.2.2 0 0 200 ⟨none⟩ (by decide) rfl⟩

/-- C8: the haversine distance (Earth radius 6371000 m, per the `R` constant
in the definition) satisfies `distance(a,a) = 0` and `distance(a,b) =
distance(b,a)` for all coordinates — exact over the reals, hence within any
floating-point tolerance. -/
theorem haversine_refl_and_symm (lat1 lon1 lat2 lon2 : ℝ) :
    haversine lat1 lon1 lat1 lon1 = 0
    ∧ haversine lat1 lon1 lat2 lon2 = haversine lat2 lon2 lat1 lon1 := by
  constructor
  · simp [haversine, toRad, atan2]
  · have key : ∀ u v p q : ℝ,
        Real.sin (toRad (v - u) / 2) * Real.sin (toRad (v - u) / 2)
          + Real.cos (toRad u) * Real.cos (toRad v)
            * Real.sin (toRad (q - p) / 2) * Real.sin (toRad (q - p) / 2)
        = Real.sin (toRad (u - v) / 2) * Real.sin (toRad (u - v) / 2)
          + Real.cos (toRad v) * Real.cos (toRad u)
            * Real.sin (toRad (p - q) / 2) * Real.sin (toRad (p - q) / 2) := by
      intro u v p q
      have h1 : toRad (v - u) = -(toRad (u - v)) := by unfold toRad; ring
      have h2 : toRad (q - p) = -(toRad (p - q)) := by unfold toRad; ring
      rw [h1, h2]
      simp only [neg_div, Real.sin_neg]
      ring
    simp only [haversine]
    rw [key lat1 lat2 lon1 lon2]

/-- The comparator order `distLe` is transitive. -/
theorem distLe_trans (a b c : RankedPlace) (hab : distLe a b = true)
    (hbc : distLe b c = true) : distLe a c = true := by
  simp only [distLe, decide_eq_true_eq] at *
  exact le_trans hab hbc

/-- The comparator order `distLe` is total. -/
theorem distLe_total (a b : RankedPlace) : (distLe a b || distLe b a) = true := by
  rcases le_total a.dist b.dist with h | h <;> simp [distLe, h]

/-- `okTypes` is built only from the four category checkboxes, so it never
contains `unknown`. -/
theorem unknown_not_mem_okTypesOf (showHospital showPolice showFire showShelter : Bool) :
    Category.unknown ∉ okTypesOf showHospital showPolice showFire showShelter := by
  cases showHospital <;> cases showPolice <;> cases showFire <;> cases showShelter <;> decide

/-- C1: the output of `scanNearby`'s filter-then-sort pipeline is sorted
non-decreasing by haversine distance from self, every element's category is
one of the allowed ones (never `unknown`), and equal-distance elements keep
their insertion order: any equal-distance-pairwise sublist of the unsorted
filtered list is still a sublist of the sorted output (stable sort). -/
theorem rankPlaces_sorted_filtered_stable (elements : List OsmElem) (myLat myLon : ℝ)
    (showHospital showPolice showFire showShelter : Bool) :
    List.Pairwise (fun a b : RankedPlace => a.dist ≤ b.dist)
      (rankPlaces elements myLat myLon
        (okTypesOf showHospital showPolice showFire showShelter))
    ∧ (∀ p ∈ rankPlaces elements myLat myLon
          (okTypesOf showHospital showPolice showFire showShelter),
        p.type ∈ okTypesOf showHospital showPolice showFire showShelter
        ∧ p.type ≠ Category.unknown)
    ∧ (∀ c : List RankedPlace,
        c.Pairwise (fun a b => a.dist = b.dist) →
        c.Sublist (rankedUnsorted elements myLat myLon
          (okTypesOf showHospital showPolice showFire showShelter)) →
        c.Sublist (rankPlaces elements myLat myLon
          (okTypesOf showHospital showPolice showFire showShelter))) := by
  refine ⟨?_, ?_, ?_⟩
  · have hs := List.sorted_mergeSort distLe_trans distLe_total
      (rankedUnsorted elements myLat myLon
        (okTypesOf showHospital showPolice showFire showShelter))
    exact hs.imp (fun h => by simpa [distLe] using h)
  · intro p hp
    have hmem : p ∈ rankedUnsorted elements myLat myLon
        (okTypesOf showHospital showPolice showFire showShelter) :=
      (List.mergeSort_perm _ distLe).mem_iff.mp hp
    unfold rankedUnsorted at hmem
    obtain ⟨q, hq, rfl⟩ := List.mem_map.mp hmem
    have hqmem := (List.mem_filter.mp hq).2
    have htype : q.type ∈ okTypesOf showHospital showPolice showFire showShelter :=
      of_decide_eq_true hqmem
    refine ⟨htype, fun hcontra => ?_⟩
    exact unknown_not_mem_okTypesOf showHospital showPolice showFire showShelter
      (hcontra ▸ htype)
  · intro c hpair hsub
    exact List.sublist_mergeSort distLe_trans distLe_total
      (hpair.imp (fun h => by simp [distLe, le_of_eq h])) hsub

/-- Witness for C1: the pipeline applied to the empty discovery result with
all checkboxes unchecked. -/
theorem rankPlaces_sorted_filtered_stable_witness :
    List.Pairwise (fun a b : RankedPlace => a.dist ≤ b.dist)
      (rankPlaces [] 0 0 (okTypesOf false false false false))
    ∧ (∀ p ∈ rankPlaces [] 0 0 (okTypesOf false false false false),
        p.type ∈ okTypesOf false false false false ∧ p.type ≠ Category.unknown)
    ∧ (∀ c : List RankedPlace,
        c.Pairwise (fun a b => a.dist = b.dist) →
        c.Sublist (rankedUnsorted [] 0 0 (okTypesOf false false false false)) →
        c.Sublist (rankPlaces [] 0 0 (okTypesOf false false false false))) :=
  rankPlaces_sorted_filtered_stable [] 0 0 false false false false

/-- Witness for C3 amended: the concrete mid-flight-clear trace of the
counterexample ends `Active` with the new route installed. -/
theorem clear_during_requesting_amended_witness :
    (routeToResolve (clearRouteClick ⟨none, [], 0, .requestingRoute⟩)
        (.ok 200 ⟨[⟨[], 1, 1⟩]⟩)).routeLayer
      = some (clearRouteClick ⟨none, [], 0, .requestingRoute⟩).nextLayerId
    ∧ (routeToResolve (clearRouteClick ⟨none, [], 0, .requestingRoute⟩)
        (.ok 200 ⟨[⟨[], 1, 1⟩]⟩)).status = .routeInfo 1 1 :=
  clear_during_requesting_amended ⟨none, [], 0, .requestingRoute⟩ ⟨[], 1, 1⟩ []
